import Mathlib

/-!
Verification of the amptop battery-telemetry daemon (`src/daemon.rs`,
`src/errors.rs`) and of the downsampling projector specified for the drain
graph. The daemon's filesystem-visible state (the PID record file and the
SQLite `battery_logs` table) is embedded as an explicit state value; the
operating system's process table is embedded as a liveness oracle
`live : Int → Bool` describing which process ids answer `kill(pid, 0)`.
-/

namespace Amptop

/-- Embeds `Error` from `src/errors.rs`. Payloads carried by wrapped external
library errors (`battery::Error`, `io::Error`, `mpsc::RecvError`,
`rusqlite::Error`, `num::ParseIntError`, and the message strings of
`Crossterm`/`Daemonize`) are elided: no claim inspects them. -/
inductive Error where
  | Battery
  | Io
  | Channel
  | Crossterm
  | Database
  | Daemonize
  | DaemonAlreadyRunning
  | DaemonNotRunning
  | InvalidPid
  deriving DecidableEq

/-- Embeds `BatterySnapshot` from `src/daemon.rs`. `percent` is an `f32` in
the source; it is embedded as a rational, which represents every value the
claims mention exactly and is only ever passed through by the daemon. -/
structure BatterySnapshot where
  percent : Rat
  timestamp : Int
  status : String
  deriving DecidableEq

/-- The filesystem-visible state of the daemon:
`pidFile` is the content of `daemon.pid` when that file exists (`none` when
absent); `table` is the row list of the `battery_logs` table in insertion
order when the table has been created (`none` when the schema was never
initialized — `Connection::open` creates the database *file* but never the
table, so the two are distinct). -/
structure SysState where
  pidFile : Option String
  table : Option (List BatterySnapshot)
  deriving DecidableEq

/-- Embeds `str::trim` as used on the PID record content: strips leading and
trailing whitespace from the character list. -/
def trimChars (cs : List Char) : List Char :=
  ((cs.dropWhile Char.isWhitespace).reverse.dropWhile Char.isWhitespace).reverse

/-- Accumulates decimal digits; fails on the first non-digit character.
Helper for `parseI32`. -/
def digitsToNat : List Char → Nat → Option Nat
  | [], acc => some acc
  | c :: cs, acc =>
      if c.isDigit then digitsToNat cs (acc * 10 + (c.toNat - 48)) else none

/-- Embeds `pid_str.trim().parse::<i32>()` from `src/daemon.rs`: optional
sign, at least one decimal digit, no other characters, value within the
`i32` range. Returns `none` exactly when Rust's parse returns `Err`. -/
def parseI32 (s : String) : Option Int :=
  match trimChars s.toList with
  | [] => none
  | '+' :: cs =>
      match cs with
      | [] => none
      | _ =>
          (digitsToNat cs 0).bind fun n =>
            if n ≤ 2147483647 then some (Int.ofNat n) else none
  | '-' :: cs =>
      match cs with
      | [] => none
      | _ =>
          (digitsToNat cs 0).bind fun n =>
            if n ≤ 2147483648 then some (-(Int.ofNat n)) else none
  | cs =>
      (digitsToNat cs 0).bind fun n =>
        if n ≤ 2147483647 then some (Int.ofNat n) else none

/-- Embeds `BatteryDaemon::start_daemon` (`src/daemon.rs:101-125`) up to the
point where control transfers into `monitoring_loop`. If the PID record file
exists the call fails with `DaemonAlreadyRunning` before touching anything
else; otherwise the process daemonizes, which writes the detached child's
process id to the PID record, and enters the monitoring loop (embedded
separately as `monitoring_loop`, since on that path the source function
never returns). Returns the call's result paired with the resulting state.
The liveness oracle is a parameter so that independence from it — the source
performs no `kill` on any path of this function — is provable. -/
def start_daemon (live : Int → Bool) (childPid : Int) (s : SysState) :
    Except Error Unit × SysState :=
  if s.pidFile.isSome then (.error .DaemonAlreadyRunning, s)
  else (.ok (), { s with pidFile := some (toString childPid) })

/-- Embeds `BatteryDaemon::is_running` (`src/daemon.rs:153-169`): absent PID
record → `false`; otherwise parse the content as an `i32` and probe the
process with `kill(pid, 0)` (the `live` oracle); parse failure → `false`. -/
def is_running (live : Int → Bool) (s : SysState) : Bool :=
  match s.pidFile with
  | none => false
  | some content =>
      match parseI32 content with
      | some pid => live pid
      | none => false

/-- Embeds `BatteryDaemon::stop_daemon` (`src/daemon.rs:171-186`). Returns
the result, the resulting state, and the list of process ids sent `SIGTERM`
(in order). Absent PID record → `DaemonNotRunning`, nothing touched. Present
record: the content is read and parsed with `?`, so a non-parsing content
aborts with `InvalidPid` before any signal or deletion; on a successful
parse, `SIGTERM` is sent (its result is discarded by the source, hence the
unused `live` oracle) and the record is deleted unconditionally. -/
def stop_daemon (live : Int → Bool) (s : SysState) :
    Except Error Unit × SysState × List Int :=
  match s.pidFile with
  | none => (.error .DaemonNotRunning, s, [])
  | some content =>
      match parseI32 content with
      | none => (.error .InvalidPid, s, [])
      | some pid => (.ok (), { s with pidFile := none }, [pid])

/-- Embeds the `ORDER BY timestamp DESC` index scan: inserts `x` in front of
the first element whose timestamp it is ≥. Helper for `sortDesc`. -/
def insertDesc (x : BatterySnapshot) : List BatterySnapshot → List BatterySnapshot
  | [] => [x]
  | y :: ys =>
      if y.timestamp ≤ x.timestamp then x :: y :: ys else y :: insertDesc x ys

/-- Sorts a row list by timestamp descending (insertion sort). SQL leaves the
relative order of rows with equal timestamps unspecified; this model keeps
equal-timestamp rows in insertion order. -/
def sortDesc : List BatterySnapshot → List BatterySnapshot
  | [] => []
  | x :: xs => insertDesc x (sortDesc xs)

/-- Embeds `BatteryDaemon::get_logs` (`src/daemon.rs:127-151`):
`SELECT percent, timestamp, status FROM battery_logs ORDER BY timestamp DESC`
with an optional `LIMIT`. When the schema was never initialized the `prepare`
fails with rusqlite's "no such table" error, surfaced as `Error::Database`
(`Connection::open` creates the database file but `get_logs` never creates
the table or index). The function reads the state and mutates nothing. -/
def get_logs (limit : Option Nat) (s : SysState) :
    Except Error (List BatterySnapshot) :=
  match s.table with
  | none => .error .Database
  | some rows =>
      match limit with
      | some n => .ok ((sortDesc rows).take n)
      | none => .ok (sortDesc rows)

/-- Embeds `BatteryDaemon::init_database` (`src/daemon.rs:37-53`):
`CREATE TABLE IF NOT EXISTS` / `CREATE INDEX IF NOT EXISTS` — keeps the
existing rows when the table exists, creates it empty otherwise. -/
def init_database (t : Option (List BatterySnapshot)) : List BatterySnapshot :=
  t.getD []

/-- Embeds `BatteryDaemon::store_snapshot` (`src/daemon.rs:82-88`): one
`INSERT`, appending a single row (the surrogate id is the position).
`engineFail` is the storage engine's verdict for this insert: `some e`
embeds a failing `conn.execute`, propagated by `?`. -/
def store_snapshot (engineFail : Option Error) (table : List BatterySnapshot)
    (snap : BatterySnapshot) : Except Error (List BatterySnapshot) :=
  match engineFail with
  | some e => .error e
  | none => .ok (table ++ [snap])

/-- Embeds `battery::State` as matched by `collect_snapshot`
(`src/daemon.rs:65-71`); `Unknown` stands for the wildcard arm. -/
inductive BatState where
  | Charging
  | Discharging
  | Full
  | Empty
  | Unknown
  deriving DecidableEq

/-- The string the `match battery.state()` arm in `collect_snapshot` produces. -/
def statusStr : BatState → String
  | .Charging => "charging"
  | .Discharging => "discharging"
  | .Full => "full"
  | .Empty => "empty"
  | .Unknown => "unknown"

/-- One reading from the hardware telemetry provider: the state of charge in
percent and the charging state. -/
structure RawReading where
  percent : Rat
  state : BatState
  deriving DecidableEq

/-- Embeds `BatteryDaemon::collect_snapshot` (`src/daemon.rs:55-80`).
`reading` is the provider's verdict for this call (`Manager::new()?`,
`batteries()?`, `battery?` failures collapse into `.error`; `.ok none` is
"no battery present"); `now` is `Utc::now().timestamp()`. -/
def collect_snapshot (reading : Except Error (Option RawReading)) (now : Int) :
    Except Error (Option BatterySnapshot) :=
  match reading with
  | .error e => .error e
  | .ok none => .ok none
  | .ok (some r) => .ok (some ⟨r.percent, now, statusStr r.state⟩)

/-- The observable fate of the collector loop after a bounded number of
iterations: either it is still looping (`running`, with the table so far) or
an iteration's error terminated it (`failed`). The source loop
(`src/daemon.rs:93-98`) has no constructor for a normal return: no such
outcome exists. -/
inductive LoopOutcome where
  | running (table : List BatterySnapshot)
  | failed (e : Error) (table : List BatterySnapshot)
  deriving DecidableEq

/-- The body of `BatteryDaemon::monitoring_loop` (`src/daemon.rs:90-99`),
unrolled for `fuel` iterations starting at iteration index `k`. Per
iteration: `collect_snapshot` (environment inputs `env k`, `now k`); an
error is fatal; `.ok none` skips the write; otherwise `store_snapshot`
(engine verdict `storeFail k`), whose error is also fatal. The
`thread::sleep` between iterations has no observable effect on the state. -/
def loop_go (env : Nat → Except Error (Option RawReading)) (now : Nat → Int)
    (storeFail : Nat → Option Error) :
    Nat → Nat → List BatterySnapshot → LoopOutcome
  | 0, _, table => .running table
  | fuel + 1, k, table =>
      match collect_snapshot (env k) (now k) with
      | .error e => .failed e table
      | .ok none => loop_go env now storeFail fuel (k + 1) table
      | .ok (some snap) =>
          match store_snapshot (storeFail k) table snap with
          | .error e => .failed e table
          | .ok t => loop_go env now storeFail fuel (k + 1) t

/-- Embeds `BatteryDaemon::monitoring_loop` (`src/daemon.rs:90-99`):
`init_database` then the loop, observed after `fuel` iterations. -/
def monitoring_loop (env : Nat → Except Error (Option RawReading))
    (now : Nat → Int) (storeFail : Nat → Option Error) (fuel : Nat)
    (t : Option (List BatterySnapshot)) : LoopOutcome :=
  loop_go env now storeFail fuel 0 (init_database t)

/-- Modelled from the spec: the Downsampling Projector's stride (§4.4). The
repository's `draw_drain_graph` (`src/ui.rs:346-356`) is a placeholder that
renders the text "Graph will be implemented here"; the decimation algorithm
specified for it is absent from src/, so it is modelled from the spec's
words: stride = max(1, floor(N / W)) when N > W, else 1. -/
def stride (N W : Nat) : Nat :=
  if W < N then max 1 (N / W) else 1

/-- Modelled from the spec: "every `stride`-th element starting at index 0"
(§4.4) — keep the head, drop the next `k - 1` elements, repeat. -/
def everyNth (k : Nat) : List BatterySnapshot → List BatterySnapshot
  | [] => []
  | x :: rest => x :: everyNth k (rest.drop (k - 1))
  termination_by xs => xs.length
  decreasing_by simp [List.length_drop]; omega

/-- Modelled from the spec: the projector's output sample set for input `xs`
and target width `W` (§4.4) — fixed decimation by `stride` starting at
index 0, points dropped, never averaged. -/
def decimate (W : Nat) (xs : List BatterySnapshot) : List BatterySnapshot :=
  everyNth (stride xs.length W) xs

/-- Number of sampled points whose status string is `st`. Helper for the
dominant-state classification. -/
def countStatus (st : String) (samples : List BatterySnapshot) : Nat :=
  (samples.filter (fun r => r.status == st)).length

/-- The dominant-state classification's outcome (§4.4); `noData` is the
"none" outcome, produced when no sampled point is charging, discharging or
full. -/
inductive Dominant where
  | discharging
  | charging
  | full
  | noData
  deriving DecidableEq

/-- Modelled from the spec: dominant-state classification over a sample set
(§4.4) — count {charging, discharging, full} occurrences; the strictly
highest count wins; ties resolve by the precedence
discharging > charging > full > none. -/
def dominantState (samples : List BatterySnapshot) : Dominant :=
  let d := countStatus "discharging" samples
  let c := countStatus "charging" samples
  let f := countStatus "full" samples
  if 0 < d ∧ c ≤ d ∧ f ≤ d then .discharging
  else if 0 < c ∧ f ≤ c then .charging
  else if 0 < f then .full
  else .noData

/-- Modelled from the spec: the projector's classification is computed over
the output sample set, not the raw input (§4.4). -/
def projectorClassify (W : Nat) (xs : List BatterySnapshot) : Dominant :=
  dominantState (decimate W xs)

/-- `insertDesc` is a permutation of consing. -/
theorem insertDesc_perm (x : BatterySnapshot) (l : List BatterySnapshot) :
    List.Perm (insertDesc x l) (x :: l) := by
  induction l with
  | nil => exact List.Perm.refl _
  | cons y ys ih =>
      simp only [insertDesc]
      split
      · exact List.Perm.refl _
      · exact (ih.cons y).trans (List.Perm.swap x y ys)

/-- An insert keeps a descending-by-timestamp list descending. -/
theorem insertDesc_pairwise (x : BatterySnapshot) (l : List BatterySnapshot)
    (h : l.Pairwise (fun a b => b.timestamp ≤ a.timestamp)) :
    (insertDesc x l).Pairwise (fun a b => b.timestamp ≤ a.timestamp) := by
  induction l with
  | nil => simp [insertDesc]
  | cons y ys ih =>
      rw [List.pairwise_cons] at h
      obtain ⟨hy, hys⟩ := h
      simp only [insertDesc]
      split
      · rename_i hle
        refine List.pairwise_cons.mpr ⟨?_, List.pairwise_cons.mpr ⟨hy, hys⟩⟩
        intro z hz
        rcases List.mem_cons.mp hz with rfl | hz
        · exact hle
        · exact le_trans (hy z hz) hle
      · rename_i hgt
        refine List.pairwise_cons.mpr ⟨?_, ih hys⟩
        intro z hz
        rcases List.mem_cons.mp ((insertDesc_perm x ys).mem_iff.mp hz) with rfl | h1
        · omega
        · exact hy z h1

/-- `sortDesc` permutes its input. -/
theorem sortDesc_perm (l : List BatterySnapshot) : List.Perm (sortDesc l) l := by
  induction l with
  | nil => exact List.Perm.refl _
  | cons x xs ih => exact (insertDesc_perm x (sortDesc xs)).trans (ih.cons x)

/-- `sortDesc` sorts by timestamp descending. -/
theorem sortDesc_pairwise (l : List BatterySnapshot) :
    (sortDesc l).Pairwise (fun a b => b.timestamp ≤ a.timestamp) := by
  induction l with
  | nil => simp [sortDesc]
  | cons x xs ih => exact insertDesc_pairwise x (sortDesc xs) ih

/-- Appending a row strictly newer than every existing row puts it at the
head of the descending sort. -/
theorem sortDesc_append_newest (x : BatterySnapshot) (l : List BatterySnapshot)
    (h : ∀ r ∈ l, r.timestamp < x.timestamp) :
    sortDesc (l ++ [x]) = x :: sortDesc l := by
  induction l with
  | nil => rfl
  | cons y ys ih =>
      have hy : y.timestamp < x.timestamp := h y (List.mem_cons_self y ys)
      have ih' := ih (fun r hr => h r (List.mem_cons_of_mem y hr))
      simp only [List.cons_append, sortDesc, List.append_eq]
      rw [ih']
      simp only [insertDesc]
      rw [if_neg (by omega)]

/-- The stride is always at least 1. -/
theorem stride_pos (N W : Nat) : 1 ≤ stride N W := by
  unfold stride
  split
  · exact le_max_left 1 _
  · exact le_refl 1

/-- Stride 1 keeps every element. -/
theorem everyNth_one (xs : List BatterySnapshot) : everyNth 1 xs = xs := by
  induction xs using everyNth.induct 1 with
  | case1 => simp [everyNth]
  | case2 x rest ih =>
      rw [everyNth]
      simp only [Nat.sub_self, List.drop_zero] at ih ⊢
      rw [ih]

/-- The output of `everyNth k` at position `i` is the input element at
position `i * k`: decimation samples exactly the multiples of the stride,
starting at index 0. -/
theorem everyNth_getElem (k : Nat) (hk : 1 ≤ k) (xs : List BatterySnapshot) :
    ∀ i : Nat, (everyNth k xs)[i]? = xs[i * k]? := by
  induction xs using everyNth.induct k with
  | case1 => intro i; simp [everyNth]
  | case2 x rest ih =>
      intro i
      cases i with
      | zero => simp [everyNth]
      | succ j =>
          have hk' : (j + 1) * k = (k - 1 + j * k) + 1 := by
            have hsm : (j + 1) * k = j * k + k := Nat.succ_mul j k
            omega
          rw [everyNth, List.getElem?_cons_succ, ih j, List.getElem?_drop,
            hk', List.getElem?_cons_succ]

/-- Claim C1: whenever the PID-record file exists, `start_daemon` fails with
`DaemonAlreadyRunning` and makes no state transition, for every liveness
oracle — the recorded process id being alive or dead is irrelevant, and no
liveness probe is performed on this path (the result is one fixed value over
all oracles). -/
theorem start_daemon_already_running (live : Int → Bool) (childPid : Int)
    (s : SysState) (h : s.pidFile.isSome) :
    start_daemon live childPid s = (.error .DaemonAlreadyRunning, s) := by
  simp [start_daemon, h]

/-- Witness for C1: a concrete state whose PID record holds "42". -/
theorem start_daemon_already_running_witness :
    start_daemon (fun _ => false) 1 ⟨some "42", none⟩ =
      (.error .DaemonAlreadyRunning, ⟨some "42", none⟩) :=
  start_daemon_already_running (fun _ => false) 1 ⟨some "42", none⟩ rfl

/-- Claim C2: when the PID-record file is absent, `stop_daemon` fails with
`DaemonNotRunning`, mutates nothing (the state is returned unchanged) and
sends no signal (the signal list is empty). -/
theorem stop_daemon_not_running (live : Int → Bool) (s : SysState)
    (h : s.pidFile = none) :
    stop_daemon live s = (.error .DaemonNotRunning, s, []) := by
  simp [stop_daemon, h]

/-- Witness for C2: the empty filesystem state. -/
theorem stop_daemon_not_running_witness :
    stop_daemon (fun _ => true) ⟨none, none⟩ =
      (.error .DaemonNotRunning, ⟨none, none⟩, []) :=
  stop_daemon_not_running (fun _ => true) ⟨none, none⟩ rfl

/-- Claim C3: `is_running` returns false when the PID record is absent; when
it is present with content `c`, it returns true iff `c` parses as an integer
and the zero-signal probe on that process id succeeds — false otherwise,
including on parse failure. -/
theorem is_running_spec (live : Int → Bool) (s : SysState) :
    (s.pidFile = none → is_running live s = false) ∧
    (∀ c, s.pidFile = some c →
      (is_running live s = true ↔
        ∃ pid, parseI32 c = some pid ∧ live pid = true)) := by
  constructor
  · intro h
    simp [is_running, h]
  · intro c hc
    simp only [is_running, hc]
    cases hp : parseI32 c with
    | none => simp
    | some pid => simp

/-- Witness for C3: record content "999999" with an oracle that reports
exactly process 999999 alive. -/
theorem is_running_spec_witness :
    is_running (fun p => p == 999999) ⟨some "999999", none⟩ = true :=
  ((is_running_spec (fun p => p == 999999) ⟨some "999999", none⟩).2
    "999999" rfl).mpr ⟨999999, by decide, by decide⟩

/-- Claim C4: `get_logs` returns rows ordered by timestamp descending;
`some n` returns the first `n` of that order (at most `n` newest rows);
`none` returns the entire table (a permutation of it, in descending order);
and timestamps `[T, T+10, T+20]` inserted in that order come back as
`[T+20, T+10, T]`. -/
theorem get_logs_spec :
    (∀ (s : SysState) (rows : List BatterySnapshot), s.table = some rows →
      ∃ full, get_logs none s = .ok full ∧
        full.Pairwise (fun a b => b.timestamp ≤ a.timestamp) ∧
        List.Perm full rows ∧
        ∀ n, get_logs (some n) s = .ok (full.take n) ∧
          (full.take n).length ≤ n) ∧
    (∀ (T : Int) (a b c : BatterySnapshot), a.timestamp = T →
      b.timestamp = T + 10 → c.timestamp = T + 20 →
      get_logs none ⟨none, some [a, b, c]⟩ = .ok [c, b, a]) := by
  constructor
  · intro s rows h
    refine ⟨sortDesc rows, ?_, sortDesc_pairwise rows, sortDesc_perm rows, ?_⟩
    · simp [get_logs, h]
    · intro n
      refine ⟨by simp [get_logs, h], ?_⟩
      rw [List.length_take]
      exact Nat.min_le_left _ _
  · intro T a b c ha hb hc
    have h1 : ¬ (c.timestamp ≤ b.timestamp) := by omega
    have h2 : ¬ (c.timestamp ≤ a.timestamp) := by omega
    have h3 : ¬ (b.timestamp ≤ a.timestamp) := by omega
    simp [get_logs, sortDesc, insertDesc, h1, h2, h3]

/-- Witness for C4: three concrete snapshots at timestamps 0, 10, 20 come
back newest first. -/
theorem get_logs_spec_witness :
    get_logs none ⟨none, some [⟨50, 0, "full"⟩, ⟨60, 10, "charging"⟩,
        ⟨70, 20, "discharging"⟩]⟩ =
      .ok [⟨70, 20, "discharging"⟩, ⟨60, 10, "charging"⟩, ⟨50, 0, "full"⟩] :=
  get_logs_spec.2 0 ⟨50, 0, "full"⟩ ⟨60, 10, "charging"⟩
    ⟨70, 20, "discharging"⟩ rfl (by decide) (by decide)

/-- Claim C10: when the schema was never initialized, `get_logs` fails with
the storage error and in particular returns no row list at all — the query
path never creates the table or index itself. -/
theorem get_logs_uninitialized (limit : Option Nat) (s : SysState)
    (h : s.table = none) :
    get_logs limit s = .error .Database ∧
      ∀ out : List BatterySnapshot, get_logs limit s ≠ .ok out := by
  have he : get_logs limit s = .error .Database := by simp [get_logs, h]
  refine ⟨he, fun out hout => ?_⟩
  rw [he] at hout
  exact Except.noConfusion hout

/-- Witness for C10: the fresh state with no table, queried without limit. -/
theorem get_logs_uninitialized_witness :
    get_logs none ⟨none, none⟩ = .error .Database ∧
      ∀ out : List BatterySnapshot, get_logs none ⟨none, none⟩ ≠ .ok out :=
  get_logs_uninitialized none ⟨none, none⟩ rfl

/-- Counterexample to claim C7 as stated: with the PID record present but
holding the non-integer content "abc", `stop_daemon` does not return
success — it fails with `InvalidPid`, deletes nothing and sends no signal,
because the source parses the content with `?` before the `kill` and the
`remove_file`. -/
theorem stop_daemon_nonparsing_content :
    stop_daemon (fun _ => true) ⟨some "abc", some []⟩ =
      (.error .InvalidPid, ⟨some "abc", some []⟩, []) := rfl

/-- Claim C7 (amended): with the PID record present, if its content parses
as an integer then `stop_daemon` sends `SIGTERM` to that process id, deletes
the record unconditionally and returns success, regardless of whether the
signalled process is alive (the result is independent of the liveness
oracle); if the content does not parse, it fails with `InvalidPid` and
neither signals nor deletes. -/
theorem stop_daemon_present_spec (live live2 : Int → Bool) (s : SysState)
    (content : String) (h : s.pidFile = some content) :
    (∀ pid : Int, parseI32 content = some pid →
      stop_daemon live s = (.ok (), { s with pidFile := none }, [pid]) ∧
      stop_daemon live s = stop_daemon live2 s) ∧
    (parseI32 content = none →
      stop_daemon live s = (.error .InvalidPid, s, [])) := by
  constructor
  · intro pid hp
    constructor <;> simp [stop_daemon, h, hp]
  · intro hp
    simp [stop_daemon, h, hp]

/-- Witness for amended C7: record content "42" is parsed, pid 42 is
signalled, the record is deleted and the call succeeds even though the
oracle reports every process dead. -/
theorem stop_daemon_present_spec_witness :
    stop_daemon (fun _ => false) ⟨some "42", some []⟩ =
      (.ok (), ⟨none, some []⟩, [42]) :=
  ((stop_daemon_present_spec (fun _ => false) (fun _ => true)
    ⟨some "42", some []⟩ "42" rfl).1 42 (by decide)).1

/-- Counterexample to claim C9 as stated: with prior log contents holding a
row at timestamp 100, appending the snapshot {42.5, 0, discharging} and
querying with limit 1 returns the older-appended but newer-stamped row, not
the appended snapshot. -/
theorem roundtrip_fails_with_newer_prior :
    store_snapshot none [⟨50, 100, "full"⟩] ⟨42.5, 0, "discharging"⟩ =
      .ok [⟨50, 100, "full"⟩, ⟨42.5, 0, "discharging"⟩] ∧
    get_logs (some 1)
        ⟨none, some [⟨50, 100, "full"⟩, ⟨42.5, 0, "discharging"⟩]⟩ =
      .ok [⟨50, 100, "full"⟩] ∧
    (⟨50, 100, "full"⟩ : BatterySnapshot) ≠ ⟨42.5, 0, "discharging"⟩ :=
  ⟨rfl, rfl, fun h => absurd (congrArg BatterySnapshot.timestamp h) (by decide)⟩

/-- Claim C9 (amended): for every prior log contents whose rows all have
timestamps strictly below `T`, appending {42.5, T, discharging} and then
querying with limit 1 returns exactly that snapshot. -/
theorem roundtrip_amended (table : List BatterySnapshot) (T : Int)
    (h : ∀ r ∈ table, r.timestamp < T) :
    store_snapshot none table ⟨42.5, T, "discharging"⟩ =
      .ok (table ++ [⟨42.5, T, "discharging"⟩]) ∧
    get_logs (some 1)
        ⟨none, some (table ++ [⟨42.5, T, "discharging"⟩])⟩ =
      .ok [⟨42.5, T, "discharging"⟩] := by
  refine ⟨rfl, ?_⟩
  have hs := sortDesc_append_newest ⟨42.5, T, "discharging"⟩ table h
  simp [get_logs, hs]

/-- Witness for amended C9: prior contents one row at timestamp 1, new
snapshot at timestamp 5. -/
theorem roundtrip_amended_witness :
    store_snapshot none [⟨50, 1, "full"⟩] ⟨42.5, 5, "discharging"⟩ =
      .ok [⟨50, 1, "full"⟩, ⟨42.5, 5, "discharging"⟩] ∧
    get_logs (some 1)
        ⟨none, some [⟨50, 1, "full"⟩, ⟨42.5, 5, "discharging"⟩]⟩ =
      .ok [⟨42.5, 5, "discharging"⟩] :=
  roundtrip_amended [⟨50, 1, "full"⟩] 5 (by decide)

/-- Claim C8: in every iteration of the collector loop — "no power source"
skips the write and continues; a provider error terminates the loop
immediately with that error; a log-write error terminates the loop
immediately with that error; otherwise exactly one snapshot is appended; and
on the happy path (provider always answers, every write succeeds) the loop
is still running after any number of iterations — it never returns. -/
theorem monitoring_loop_spec (env : Nat → Except Error (Option RawReading))
    (now : Nat → Int) (storeFail : Nat → Option Error) :
    (∀ fuel k table, env k = .ok none →
      loop_go env now storeFail (fuel + 1) k table =
        loop_go env now storeFail fuel (k + 1) table) ∧
    (∀ fuel k table e, env k = .error e →
      loop_go env now storeFail (fuel + 1) k table = .failed e table) ∧
    (∀ fuel k table r e, env k = .ok (some r) → storeFail k = some e →
      loop_go env now storeFail (fuel + 1) k table = .failed e table) ∧
    (∀ fuel k table r, env k = .ok (some r) → storeFail k = none →
      loop_go env now storeFail (fuel + 1) k table =
        loop_go env now storeFail fuel (k + 1)
          (table ++ [⟨r.percent, now k, statusStr r.state⟩])) ∧
    ((∀ i, (∃ x, env i = .ok x) ∧ storeFail i = none) →
      ∀ fuel k table, ∃ t,
        loop_go env now storeFail fuel k table = .running t) := by
  refine ⟨?_, ?_, ?_, ?_, ?_⟩
  · intro fuel k table h
    simp [loop_go, collect_snapshot, h]
  · intro fuel k table e h
    simp [loop_go, collect_snapshot, h]
  · intro fuel k table r e h hs
    simp [loop_go, collect_snapshot, store_snapshot, h, hs]
  · intro fuel k table r h hs
    simp [loop_go, collect_snapshot, store_snapshot, h, hs]
  · intro henv fuel
    induction fuel with
    | zero => exact fun k table => ⟨table, rfl⟩
    | succ n ih =>
        intro k table
        obtain ⟨⟨x, hx⟩, hs⟩ := henv k
        cases x with
        | none =>
            simpa [loop_go, collect_snapshot, hx] using ih (k + 1) table
        | some r =>
            simpa [loop_go, collect_snapshot, store_snapshot, hx, hs] using
              ih (k + 1) (table ++ [⟨r.percent, now k, statusStr r.state⟩])

/-- Witness for C8: a provider that always reports no battery makes one
iteration pass without writing. -/
theorem monitoring_loop_spec_witness :
    loop_go (fun _ => .ok none) (fun _ => 0) (fun _ => none) 1 0 [] =
      loop_go (fun _ => .ok none) (fun _ => 0) (fun _ => none) 0 1 [] :=
  (monitoring_loop_spec (fun _ => .ok none) (fun _ => 0) (fun _ => none)).1
    0 0 [] rfl

/-- Claim C5 (projector modelled from the spec): the stride is
max(1, floor(N / W)) when N > W and 1 otherwise; the output sample set is
exactly every stride-th input element starting at index 0 (position `i` of
the output is position `i * stride` of the input — elements are dropped,
never averaged); and an input of length 50 with W = 100 has stride 1 and is
returned whole (output length 50). -/
theorem decimate_spec (W : Nat) (hW : 0 < W) (xs : List BatterySnapshot) :
    stride xs.length W =
      (if W < xs.length then max 1 (xs.length / W) else 1) ∧
    (∀ i : Nat, (decimate W xs)[i]? = xs[i * stride xs.length W]?) ∧
    (xs.length = 50 → W = 100 →
      stride xs.length W = 1 ∧ decimate W xs = xs) := by
  refine ⟨rfl, ?_, ?_⟩
  · exact everyNth_getElem _ (stride_pos _ _) xs
  · intro h50 h100
    subst h100
    have hs : stride xs.length 100 = 1 := by rw [h50]; rfl
    exact ⟨hs, by rw [decimate, hs]; exact everyNth_one xs⟩

/-- Witness for C5: a concrete 50-element input with W = 100 keeps all 50
elements. -/
theorem decimate_spec_witness :
    stride (List.replicate 50 (⟨50, 0, "full"⟩ : BatterySnapshot)).length
        100 = 1 ∧
    decimate 100 (List.replicate 50 (⟨50, 0, "full"⟩ : BatterySnapshot)) =
      List.replicate 50 (⟨50, 0, "full"⟩ : BatterySnapshot) :=
  (decimate_spec 100 (by decide) _).2.2 (by simp) rfl

/-- Claim C6 (projector modelled from the spec): the dominant-state
classification is computed over the output sample set; the category with the
strictly highest count wins; ties resolve by the precedence
discharging > charging > full > none — in particular equal discharging and
charging counts resolve to discharging; and a concrete input shows the
sampled points, not the raw input, decide the outcome. -/
theorem dominantState_spec (samples : List BatterySnapshot) :
    (0 < countStatus "discharging" samples →
      countStatus "charging" samples ≤ countStatus "discharging" samples →
      countStatus "full" samples ≤ countStatus "discharging" samples →
      dominantState samples = .discharging) ∧
    (0 < countStatus "charging" samples →
      countStatus "discharging" samples < countStatus "charging" samples →
      countStatus "full" samples ≤ countStatus "charging" samples →
      dominantState samples = .charging) ∧
    (0 < countStatus "full" samples →
      countStatus "discharging" samples < countStatus "full" samples →
      countStatus "charging" samples < countStatus "full" samples →
      dominantState samples = .full) ∧
    (countStatus "discharging" samples = 0 →
      countStatus "charging" samples = 0 →
      countStatus "full" samples = 0 → dominantState samples = .noData) ∧
    (∀ W, projectorClassify W samples = dominantState (decimate W samples)) ∧
    (projectorClassify 1 [⟨0, 0, "discharging"⟩, ⟨0, 0, "charging"⟩,
        ⟨0, 0, "charging"⟩] = .discharging ∧
      dominantState [⟨0, 0, "discharging"⟩, ⟨0, 0, "charging"⟩,
        ⟨0, 0, "charging"⟩] = .charging) := by
  refine ⟨?_, ?_, ?_, ?_, fun W => rfl, ?_, ?_⟩
  · intro h1 h2 h3
    simp only [dominantState]
    rw [if_pos ⟨h1, h2, h3⟩]
  · intro h1 h2 h3
    simp only [dominantState]
    rw [if_neg (by omega), if_pos ⟨h1, h3⟩]
  · intro h1 h2 h3
    simp only [dominantState]
    rw [if_neg (by omega), if_neg (by omega), if_pos h1]
  · intro h1 h2 h3
    simp only [dominantState]
    rw [if_neg (by omega), if_neg (by omega), if_neg (by omega)]
  · have h1 : everyNth 3 [(⟨0, 0, "discharging"⟩ : BatterySnapshot),
        ⟨0, 0, "charging"⟩, ⟨0, 0, "charging"⟩] = [⟨0, 0, "discharging"⟩] := by
      rw [everyNth]
      have hd : List.drop (3 - 1) [(⟨0, 0, "charging"⟩ : BatterySnapshot),
          ⟨0, 0, "charging"⟩] = ([] : List BatterySnapshot) := rfl
      rw [hd, everyNth]
    show dominantState (everyNth (stride 3 1) _) = Dominant.discharging
    have hs : stride 3 1 = 3 := rfl
    rw [hs, h1]
    decide
  · decide

/-- Witness for C6: five discharging and five charging sampled points — a
5 : 5 : 0 tie — classify as discharging. -/
theorem dominantState_spec_witness :
    dominantState (List.replicate 5 (⟨0, 0, "discharging"⟩ : BatterySnapshot)
        ++ List.replicate 5 (⟨0, 0, "charging"⟩ : BatterySnapshot)) =
      .discharging :=
  (dominantState_spec _).1 (by decide) (by decide) (by decide)

end Amptop
